import Mathlib

/-!
# Verification of the EO-SAR change-detection pipeline

Shallow embedding of `src/change_detection_S1.py` (radar path) and
`src/change_detection_s2.py` (optical path).  Grids of floating-point
samples are idealised as rectangular lists of rationals; binary masks are
lists of booleans.  Library-computed transcendental functions (`np.log10`
inside `to_db`, the principal axis returned by sklearn's SVD) are taken as
parameters, so every theorem quantifies over all their possible values.
numpy's failure on a percentile over an empty population is modelled by
`Except` with the `emptyPopulation` error, and sklearn's shape validation
inside `PCA.fit_transform` (a `ValueError` whenever `n_components` exceeds
`min(n_samples, n_features)`) by the `invalidComponents` error.

Morphology follows scipy defaults exactly: `generate_binary_structure(2, 2)`
is the full 3x3 structuring element, `generate_binary_structure(2, 1)` the
cross, and both `binary_opening` and `binary_closing` use `border_value=0`,
i.e. cells outside the image count as background for erosion and dilation.
Connected components are 8-connected as in `skimage.measure.label`; the
embedding labels each component by the smallest linear index it contains,
which yields the same partition into regions (and the same zero/nonzero
test) as skimage's scan-order numbering.
-/

set_option maxRecDepth 4000

abbrev Grid := List (List ℚ)
abbrev Mask := List (List Bool)
abbrev LabGrid := List (List Nat)

/-- Rectangular array builder: `H` rows, `W` columns, entry `f i j`. -/
def mkRect {α : Type} (H W : Nat) (f : Nat → Nat → α) : List (List α) :=
  (List.range H).map fun i => (List.range W).map fun j => f i j

/-- Read entry `(i, j)`, returning the default `d` out of range. -/
def rget {α : Type} (d : α) (m : List (List α)) (i j : Nat) : α :=
  (m.getD i []).getD j d

def gget (g : Grid) (i j : Nat) : ℚ := rget 0 g i j

def mget (m : Mask) (i j : Nat) : Bool := rget false m i j

def lget (g : LabGrid) (i j : Nat) : Nat := rget 0 g i j

def rowsOf {α : Type} (m : List (List α)) : Nat := m.length

def colsOf {α : Type} (m : List (List α)) : Nat := (m.headD []).length

def gridH (g : Grid) : Nat := rowsOf g

def gridW (g : Grid) : Nat := colsOf g

def gridShape (g : Grid) : Nat × Nat := (gridH g, gridW g)

/-- Signed-index mask read; outside the image counts as background
(scipy `border_value=0`). -/
def mgetZ (m : Mask) (i j : Int) : Bool :=
  if 0 ≤ i ∧ 0 ≤ j then mget m i.toNat j.toNat else false

/-- Signed-index label read; out of range is background label 0. -/
def lgetZ (g : LabGrid) (i j : Int) : Nat :=
  if 0 ≤ i ∧ 0 ≤ j then lget g i.toNat j.toNat else 0

/-- The full 3x3 structuring element `generate_binary_structure(2, 2)`. -/
def offsets8 : List (Int × Int) :=
  [(-1, -1), (-1, 0), (-1, 1), (0, -1), (0, 0), (0, 1), (1, -1), (1, 0), (1, 1)]

/-- The cross structuring element `generate_binary_structure(2, 1)`,
the scipy default when `structure=None`. -/
def offsetsCross : List (Int × Int) :=
  [(-1, 0), (0, -1), (0, 0), (0, 1), (1, 0)]

/-- `scipy.ndimage.binary_erosion` with structuring element `offs` and
`border_value=0`. -/
def erodeWith (offs : List (Int × Int)) (m : Mask) : Mask :=
  mkRect (rowsOf m) (colsOf m) fun i j =>
    offs.all fun d => mgetZ m ((i : Int) + d.1) ((j : Int) + d.2)

/-- `scipy.ndimage.binary_dilation` with structuring element `offs`
(symmetric), result clipped to the image. -/
def dilateWith (offs : List (Int × Int)) (m : Mask) : Mask :=
  mkRect (rowsOf m) (colsOf m) fun i j =>
    offs.any fun d => mgetZ m ((i : Int) + d.1) ((j : Int) + d.2)

def erode8 (m : Mask) : Mask := erodeWith offsets8 m

def dilate8 (m : Mask) : Mask := dilateWith offsets8 m

/-- `binary_opening(mask, structure=generate_binary_structure(2, 2))`. -/
def open8 (m : Mask) : Mask := dilate8 (erode8 m)

/-- `binary_closing(mask, structure=generate_binary_structure(2, 2))`. -/
def close8 (m : Mask) : Mask := erode8 (dilate8 m)

def erodeCross (m : Mask) : Mask := erodeWith offsetsCross m

def dilateCross (m : Mask) : Mask := dilateWith offsetsCross m

/-- Row-major list of all pixel coordinates of an `H` by `W` image. -/
def allCells (H W : Nat) : List (Nat × Nat) :=
  ((List.range H).map fun i => (List.range W).map fun j => (i, j)).flatten

/-- Initial labels for component labelling: each foreground cell starts
with its own (positive) linear index. -/
def seedLabels (m : Mask) : LabGrid :=
  mkRect (rowsOf m) (colsOf m) fun i j =>
    if mget m i j then i * colsOf m + j + 1 else 0

/-- Positive labels of the foreground cells in the 8-neighbourhood. -/
def nbrLabels (m : Mask) (lab : LabGrid) (i j : Nat) : List Nat :=
  offsets8.filterMap fun d =>
    if mgetZ m ((i : Int) + d.1) ((j : Int) + d.2) then
      some (lgetZ lab ((i : Int) + d.1) ((j : Int) + d.2))
    else none

/-- One propagation step: every foreground cell takes the minimum label
seen in its 8-neighbourhood. -/
def stepLabel (m : Mask) (lab : LabGrid) : LabGrid :=
  mkRect (rowsOf m) (colsOf m) fun i j =>
    if mget m i j then (nbrLabels m lab i j).foldl Nat.min (lget lab i j) else 0

/-- 8-connected component labelling (`skimage.measure.label` with full
connectivity): propagate minima for `H * W` steps, enough to reach the
fixed point where each component carries its smallest seed. -/
def labelMask (m : Mask) : LabGrid :=
  (List.range (rowsOf m * colsOf m)).foldl (fun lab _ => stepLabel m lab) (seedLabels m)

/-- Row-major coordinates of the region carrying label `l`
(`regionprops(labeled)[...].coords`). -/
def regionCoords (lab : LabGrid) (l : Nat) : List (Nat × Nat) :=
  (allCells (rowsOf lab) (colsOf lab)).filter fun c => lget lab c.1 c.2 == l

/-- Pixel count of the region carrying label `l` (`region.area`). -/
def labelArea (lab : LabGrid) (l : Nat) : Nat := (regionCoords lab l).length

/-- `MIN_AREA = 10`, minimum connected-pixel area. -/
def MIN_AREA : Nat := 10

/-- `clean_mask` from `change_detection_S1.py`: binary opening then closing
with the full 3x3 element, then drop 8-connected components whose area is
below `minArea`. -/
def clean_mask (m : Mask) (minArea : Nat) : Mask :=
  let n := close8 (open8 m)
  let lab := labelMask n
  mkRect (rowsOf m) (colsOf m) fun i j =>
    (lget lab i j != 0) && decide (minArea ≤ labelArea lab (lget lab i j))

/-- Insertion into a sorted list of rationals. -/
def insertQ (x : ℚ) : List ℚ → List ℚ
  | [] => [x]
  | y :: ys => if x ≤ y then x :: y :: ys else y :: insertQ x ys

/-- Insertion sort, modelling the ascending sort inside `np.percentile`. -/
def sortQ : List ℚ → List ℚ
  | [] => []
  | x :: xs => insertQ x (sortQ xs)

/-- Linear-interpolation percentile of a sorted nonempty sample, numpy's
default method: virtual index `q * (n - 1) / 100`, interpolate between the
two bracketing order statistics. -/
def percentileSorted (s : List ℚ) (q : ℚ) : ℚ :=
  let pos : ℚ := q * ((s.length : ℚ) - 1) / 100
  let k : Nat := (⌊pos⌋).toNat
  let frac : ℚ := pos - (k : ℚ)
  s.getD k 0 + frac * (s.getD (k + 1) 0 - s.getD k 0)

/-- `np.percentile(xs, q)`: undefined (numpy raises) on an empty sample. -/
def percentile (xs : List ℚ) (q : ℚ) : Option ℚ :=
  if xs.isEmpty then none else some (percentileSorted (sortQ xs) q)

inductive PipeError
  | shapeMismatch
  | emptyPopulation
  | invalidComponents
deriving DecidableEq

/-- A percentile threshold as used by the pipeline: requesting it over an
empty population is the fatal `EmptyPopulation` condition. -/
def pctOrErr (xs : List ℚ) (q : ℚ) : Except PipeError ℚ :=
  match percentile xs q with
  | none => Except.error PipeError.emptyPopulation
  | some t => Except.ok t

/-- `EPS = 1e-9`. -/
def EPS : ℚ := 1 / 1000000000

/-- `PERCENTILE_OBJ = 95`, object-level changes. -/
def PERCENTILE_OBJ : ℚ := 95

/-- `PERCENTILE_PIX = 90`, pixel-level land changes. -/
def PERCENTILE_PIX : ℚ := 90

/-- `PERCENTILE_WATER = 98`, pixel-level water changes. -/
def PERCENTILE_WATER : ℚ := 98

/-- `MIN_BACKSCATTER_DB = -20`, water threshold in dB. -/
def MIN_BACKSCATTER_DB : ℚ := -20

/-- `to_db`: clip below `EPS`, then `10 * log10`.  `np.log10` is a
library-computed real function, taken here as the parameter `log10`. -/
def to_db (log10 : ℚ → ℚ) (g : Grid) : Grid :=
  g.map (List.map fun x => 10 * log10 (max x EPS))

/-- Reflected index for scipy's default boundary mode; for a size-3 window
only the immediate out-of-range indices occur, which reflect to the edge. -/
def reflIdx (n : Nat) (i : Int) : Nat :=
  if i < 0 then 0 else if (n : Int) ≤ i then n - 1 else i.toNat

/-- `despeckle`: `scipy.ndimage.uniform_filter` with `size=3`, the mean of
the 3x3 neighbourhood with reflected boundaries. -/
def despeckle (g : Grid) : Grid :=
  mkRect (gridH g) (gridW g) fun i j =>
    ((offsets8.map fun d =>
        gget g (reflIdx (gridH g) ((i : Int) + d.1)) (reflIdx (gridW g) ((j : Int) + d.2))).sum) / 9

/-- Stratifier: a cell is water when its value is below the fixed
backscatter threshold in both grids
(`water_mask = (db1 < MIN_BACKSCATTER_DB) & (db2 < MIN_BACKSCATTER_DB)`). -/
def waterMask (db1 db2 : Grid) : Mask :=
  mkRect (gridH db1) (gridW db1) fun i j =>
    decide (gget db1 i j < MIN_BACKSCATTER_DB) && decide (gget db2 i j < MIN_BACKSCATTER_DB)

/-- `land_mask = ~water_mask`. -/
def landMask (db1 db2 : Grid) : Mask :=
  mkRect (gridH db1) (gridW db1) fun i j => !mget (waterMask db1 db2) i j

/-- numpy boolean indexing `g[m]`: the row-major list of values selected by
the zone mask. -/
def maskedValues (g : Grid) (m : Mask) : List ℚ :=
  ((allCells (gridH g) (gridW g)).filter fun c => mget m c.1 c.2).map fun c => gget g c.1 c.2

/-- Row-major list of all values of a grid. -/
def gridValues (g : Grid) : List ℚ :=
  (allCells (gridH g) (gridW g)).map fun c => gget g c.1 c.2

/-- `g[g > 0]`: the strictly positive values of a grid. -/
def posValues (g : Grid) : List ℚ :=
  (gridValues g).filter fun x => decide (0 < x)

/-- Multiplying by a boolean mask, numpy style. -/
def boolInd (b : Bool) : ℚ := if b then 1 else 0

/-- `abs_diff = np.abs(db2 - db1) * land_mask`. -/
def absDiffGrid (db1 db2 : Grid) : Grid :=
  mkRect (gridH db1) (gridW db1) fun i j =>
    |gget db2 i j - gget db1 i j| * boolInd (mget (landMask db1 db2) i j)

/-- `(db2 - db1).clip(min=0) * zone` for a zone mask (land or water). -/
def brightDiffGrid (db1 db2 : Grid) (zone : Mask) : Grid :=
  mkRect (gridH db1) (gridW db1) fun i j =>
    max (gget db2 i j - gget db1 i j) 0 * boolInd (mget zone i j)

/-- `g >= t` as a boolean mask. -/
def threshMask (g : Grid) (t : ℚ) : Mask :=
  mkRect (gridH g) (gridW g) fun i j => decide (t ≤ gget g i j)

/-- Overlap test of the region comparator: true when none of the region's
coordinates carries a nonzero label in the other epoch's labelled mask
(`np.all(labeled_other[coords] == 0)`). -/
def unmatchedRegion (other : LabGrid) (coords : List (Nat × Nat)) : Bool :=
  coords.all fun c => lget other c.1 c.2 == 0

/-- Appearance/disappearance criterion: the loop over `regionprops(labA)`
marks the full footprint of every region with no overlapping label in
`labB`. -/
def appearFlagMask (labA labB : LabGrid) : Mask :=
  mkRect (rowsOf labA) (colsOf labA) fun i j =>
    (lget labA i j != 0) && unmatchedRegion labB (regionCoords labA (lget labA i j))

/-- Mean of the source grid over a region's coordinates (`db[coords].mean()`). -/
def meanOver (g : Grid) (coords : List (Nat × Nat)) : ℚ :=
  ((coords.map fun c => gget g c.1 c.2).sum) / (coords.length : ℚ)

/-- Intensity-shift criterion over the time-1 regions: flag the whole
region when the absolute difference of its means exceeds `thr_intensity`. -/
def intensityFlag (db1 db2 : Grid) (lab1 : LabGrid) (thrI : ℚ) (i j : Nat) : Bool :=
  (lget lab1 i j != 0) &&
    decide (thrI ≤
      |meanOver db2 (regionCoords lab1 (lget lab1 i j)) -
        meanOver db1 (regionCoords lab1 (lget lab1 i j))|)

/-- The pure tail of the radar workflow, given the five successfully
computed percentile thresholds: object criteria, cleaning, pixel criteria,
water criterion and the final logical-or merge
(lines 94-134 of `change_detection_S1.py`). -/
def radarFinal (db1 db2 : Grid) (thr1 thr2 thrI thrPix thrWater : ℚ) : Mask :=
  let H := gridH db1
  let W := gridW db1
  let land := landMask db1 db2
  let water := waterMask db1 db2
  let labeled1 := labelMask (clean_mask (threshMask db1 thr1) MIN_AREA)
  let labeled2 := labelMask (clean_mask (threshMask db2 thr2) MIN_AREA)
  let changeObjRaw := mkRect H W fun i j =>
    mget (appearFlagMask labeled2 labeled1) i j || mget (appearFlagMask labeled1 labeled2) i j ||
      intensityFlag db1 db2 labeled1 thrI i j
  let changeObj := clean_mask changeObjRaw MIN_AREA
  let changeLandPix := threshMask (brightDiffGrid db1 db2 land) thrPix
  let changeWater := clean_mask (threshMask (brightDiffGrid db1 db2 water) thrWater) MIN_AREA
  mkRect H W fun i j =>
    (mget changeObj i j || mget changeLandPix i j) || mget changeWater i j

/-- The radar workflow on normalised grids: the five percentile thresholds
in source order (`thr1`, `thr2`, `thr_intensity`, `thr_pix`, `thr_water`),
each fatal when its selected population is empty, then the pure mask
computation. -/
def radarCore (db1 db2 : Grid) : Except PipeError Mask :=
  (pctOrErr (maskedValues db1 (landMask db1 db2)) PERCENTILE_OBJ).bind fun thr1 =>
  (pctOrErr (maskedValues db2 (landMask db1 db2)) PERCENTILE_OBJ).bind fun thr2 =>
  (pctOrErr (maskedValues (absDiffGrid db1 db2) (landMask db1 db2)) PERCENTILE_OBJ).bind fun thrI =>
  (pctOrErr (posValues (brightDiffGrid db1 db2 (landMask db1 db2))) PERCENTILE_PIX).bind fun thrPix =>
  (pctOrErr (posValues (brightDiffGrid db1 db2 (waterMask db1 db2))) PERCENTILE_WATER).bind
    fun thrWater =>
  Except.ok (radarFinal db1 db2 thr1 thr2 thrI thrPix thrWater)

/-- The full radar pipeline: the upfront shape check
(`if img1.shape != img2.shape: raise ValueError`), then dB conversion,
despeckling and the core workflow. -/
def radarPipeline (log10 : ℚ → ℚ) (img1 img2 : Grid) : Except PipeError Mask :=
  if gridShape img1 ≠ gridShape img2 then Except.error PipeError.shapeMismatch
  else radarCore (despeckle (to_db log10 img1)) (despeckle (to_db log10 img2))

/-- `MIN_SHIP_AREA = 3`. -/
def MIN_SHIP_AREA : Nat := 3

/-- `MAX_SHIP_AREA = 300`. -/
def MAX_SHIP_AREA : Nat := 300

/-- Height of a band stack, from its first band (`pre.shape[1]`). -/
def bandH (bands : List Grid) : Nat := gridH (bands.headD [])

/-- Width of a band stack, from its first band (`pre.shape[2]`). -/
def bandW (bands : List Grid) : Nat := gridW (bands.headD [])

/-- `diff = post - pre; diff_flat = diff.reshape(B, -1).T`: one row of
per-band differences per pixel, pixels in row-major order. -/
def diffFlat (pre post : List Grid) : List (List ℚ) :=
  (allCells (bandH pre) (bandW pre)).map fun c =>
    (List.range pre.length).map fun k =>
      gget (post.getD k []) c.1 c.2 - gget (pre.getD k []) c.1 c.2

/-- Column means of the pixel-vector matrix (PCA centres the data). -/
def colMeans (X : List (List ℚ)) : List ℚ :=
  (List.range ((X.headD []).length)).map fun k =>
    ((X.map fun r => r.getD k 0).sum) / (X.length : ℚ)

/-- Dot product of rational vectors. -/
def dotQ (u v : List ℚ) : ℚ := (List.zipWith (fun a b => a * b) u v).sum

/-- First-component scores of sklearn's `PCA.fit_transform`: centre each
pixel vector by the column means and project it onto the first principal
axis.  The axis itself is computed by the library's SVD and is therefore a
parameter. -/
def pcaScores (X : List (List ℚ)) (axis : List ℚ) : List ℚ :=
  X.map fun r => dotQ (List.zipWith (fun a m => a - m) r (colMeans X)) axis

/-- Tail of the optical workflow from the absolute first-component scores:
95th-percentile threshold, strict comparison, cross opening (1 iteration),
cross closing (2 iterations), then keep components with area in
`[MIN_SHIP_AREA, MAX_SHIP_AREA]`. -/
def opticalFromAbs (H W : Nat) (absScores : List ℚ) : Except PipeError Mask :=
  (pctOrErr absScores 95).bind fun thresh =>
  let change := mkRect H W fun i j => decide (thresh < absScores.getD (i * W + j) 0)
  let opened := dilateCross (erodeCross change)
  let closed := erodeCross (erodeCross (dilateCross (dilateCross opened)))
  let lab := labelMask closed
  Except.ok (mkRect H W fun i j =>
    (lget lab i j != 0) &&
      decide (MIN_SHIP_AREA ≤ labelArea lab (lget lab i j) ∧
        labelArea lab (lget lab i j) ≤ MAX_SHIP_AREA))

/-- Optical workflow from the signed first-component scores `pc1`:
`pc1_abs = np.abs(pc1)` and then the thresholding tail. -/
def opticalFromScores (H W : Nat) (scores : List ℚ) : Except PipeError Mask :=
  opticalFromAbs H W (scores.map fun x => |x|)

/-- `PCA(n_components=4)`: the number of requested principal components. -/
def N_COMPONENTS : Nat := 4

/-- The PCA-based optical change detection of `change_detection_s2.py`,
parameterised by the first principal axis the library's SVD returns.
`PCA(n_components=4).fit_transform` validates the shape of its input
before anything else: sklearn raises a `ValueError` unless
`n_components <= min(n_samples, n_features)`, modelled by the
`invalidComponents` error; past that guard the first-component scores are
the centred projections onto the axis and the thresholding tail runs. -/
def opticalCore (pre post : List Grid) (axis : List ℚ) : Except PipeError Mask :=
  if N_COMPONENTS ≤
      min (diffFlat pre post).length ((diffFlat pre post).headD []).length then
    opticalFromScores (bandH pre) (bandW pre) (pcaScores (diffFlat pre post) axis)
  else Except.error PipeError.invalidComponents

/-- The six affine coefficients of a rasterio geotransform, row-major:
`a` is the pixel x-scale and `e` the pixel y-scale. -/
structure GeoTransform where
  a : ℚ
  b : ℚ
  c : ℚ
  d : ℚ
  e : ℚ
  f : ℚ
deriving DecidableEq

/-- A traced change polygon; only its ground-unit area matters to the
filtering logic. -/
structure ChangePolygon where
  area : ℚ
deriving DecidableEq

/-- `pixel_area = abs(transform[0] * transform[4])`. -/
def pixelArea (t : GeoTransform) : ℚ := |t.a * t.e|

/-- The polygons surviving the ground-area filter:
`[poly for poly in polygons if poly.area >= min_area * pixel_area]`. -/
def keptPolys (polys : List ChangePolygon) (t : GeoTransform) (minArea : ℚ) :
    List ChangePolygon :=
  polys.filter fun p => decide (minArea * pixelArea t ≤ p.area)

/-- Observable outcome of the vectorisation step: either the early return
that only prints "no change polygons detected", or a write of the kept
polygons to the GeoJSON sink. -/
inductive VectorizeResult
  | noChanges
  | saved (polys : List ChangePolygon)
deriving DecidableEq

/-- `mask_to_geojson` / `mask_to_geojson_georef`: filter the traced
polygons by ground area; with no survivor, return early without touching
the vector sink, otherwise save the collection.  The polygon tracing
itself (`rasterio.features.shapes`) is a library call, so the traced
polygons are the input. -/
def mask_to_geojson (polys : List ChangePolygon) (t : GeoTransform) (minArea : ℚ) :
    VectorizeResult :=
  match keptPolys polys t minArea with
  | [] => VectorizeResult.noChanges
  | ps => VectorizeResult.saved ps

/-- Whether the vectorisation outcome wrote a file to the vector sink
(`gdf.to_file(out_path, driver="GeoJSON")`). -/
def writesFile : VectorizeResult → Bool
  | VectorizeResult.noChanges => false
  | VectorizeResult.saved _ => true

theorem rget_mkRect {α : Type} (d : α) (H W : Nat) (f : Nat → Nat → α) (i j : Nat) :
    rget d (mkRect H W f) i j = if i < H ∧ j < W then f i j else d := by
  unfold rget mkRect
  by_cases hi : i < H
  · have h1 : ((List.range H).map fun i => (List.range W).map fun j => f i j).getD i [] =
        (List.range W).map fun j => f i j := by
      rw [List.getD_eq_getElem?_getD, List.getElem?_map, List.getElem?_range hi]
      rfl
    rw [h1]
    by_cases hj : j < W
    · rw [List.getD_eq_getElem?_getD, List.getElem?_map, List.getElem?_range hj]
      simp [hi, hj]
    · rw [List.getD_eq_getElem?_getD, List.getElem?_eq_none]
      · simp [hj]
      · simpa using Nat.le_of_not_lt hj
  · have h1 : ((List.range H).map fun i => (List.range W).map fun j => f i j).getD i [] = [] := by
      rw [List.getD_eq_getElem?_getD, List.getElem?_eq_none]
      · rfl
      · simpa using Nat.le_of_not_lt hi
    rw [h1]
    simp [hi]

theorem mkRect_congr {α : Type} (H W : Nat) (f g : Nat → Nat → α)
    (h : ∀ i j, i < H → j < W → f i j = g i j) : mkRect H W f = mkRect H W g := by
  unfold mkRect
  refine List.map_congr_left fun i hi => ?_
  refine List.map_congr_left fun j hj => ?_
  exact h i j (List.mem_range.mp hi) (List.mem_range.mp hj)

theorem mem_allCells (H W : Nat) (c : Nat × Nat) :
    c ∈ allCells H W ↔ c.1 < H ∧ c.2 < W := by
  unfold allCells
  constructor
  · intro hc
    rcases List.mem_flatten.mp hc with ⟨row, hrow, hcrow⟩
    rcases List.mem_map.mp hrow with ⟨i, hi, rfl⟩
    rcases List.mem_map.mp hcrow with ⟨j, hj, rfl⟩
    exact ⟨List.mem_range.mp hi, List.mem_range.mp hj⟩
  · rintro ⟨h1, h2⟩
    refine List.mem_flatten.mpr ⟨(List.range W).map fun j => (c.1, j), ?_, ?_⟩
    · exact List.mem_map.mpr ⟨c.1, List.mem_range.mpr h1, rfl⟩
    · exact List.mem_map.mpr ⟨c.2, List.mem_range.mpr h2, by simp⟩

theorem mem_gridValues (g : Grid) (x : ℚ) (hx : x ∈ gridValues g) :
    ∃ i j, x = gget g i j := by
  unfold gridValues at hx
  rcases List.mem_map.mp hx with ⟨c, _, rfl⟩
  exact ⟨c.1, c.2, rfl⟩

theorem pctOrErr_nil (q : ℚ) :
    pctOrErr [] q = Except.error PipeError.emptyPopulation := rfl

theorem pctOrErr_cases (xs : List ℚ) (q : ℚ) :
    (∃ t, pctOrErr xs q = Except.ok t) ∨
      pctOrErr xs q = Except.error PipeError.emptyPopulation := by
  unfold pctOrErr
  cases percentile xs q with
  | none => exact Or.inr rfl
  | some t => exact Or.inl ⟨t, rfl⟩

theorem getD_zero_of_all_zero (l : List ℚ) (h : ∀ v ∈ l, v = 0) (k : Nat) :
    l.getD k 0 = 0 := by
  induction l generalizing k with
  | nil => simp
  | cons a l ih =>
    cases k with
    | zero => exact h a (List.mem_cons_self a l)
    | succ k => exact ih (fun v hv => h v (List.mem_cons_of_mem a hv)) k

theorem mem_insertQ (x y : ℚ) (l : List ℚ) (h : y ∈ insertQ x l) : y = x ∨ y ∈ l := by
  induction l with
  | nil => simpa [insertQ] using h
  | cons a l ih =>
    unfold insertQ at h
    by_cases hc : x ≤ a
    · rw [if_pos hc] at h
      rcases List.mem_cons.mp h with h1 | h1
      · exact Or.inl h1
      · exact Or.inr h1
    · rw [if_neg hc] at h
      rcases List.mem_cons.mp h with h1 | h1
      · exact Or.inr (h1 ▸ List.mem_cons_self a l)
      · rcases ih h1 with h2 | h2
        · exact Or.inl h2
        · exact Or.inr (List.mem_cons_of_mem a h2)

theorem mem_sortQ (l : List ℚ) (y : ℚ) (h : y ∈ sortQ l) : y ∈ l := by
  induction l with
  | nil =>
    rw [sortQ] at h
    exact absurd h (List.not_mem_nil y)
  | cons a l ih =>
    unfold sortQ at h
    rcases mem_insertQ a y (sortQ l) h with h1 | h1
    · exact h1 ▸ List.mem_cons_self a l
    · exact List.mem_cons_of_mem a (ih h1)

theorem pct_all_zero (xs : List ℚ) (q : ℚ) (hne : xs ≠ []) (h : ∀ v ∈ xs, v = 0) :
    pctOrErr xs q = Except.ok 0 := by
  have hs : ∀ v ∈ sortQ xs, v = 0 := fun v hv => h v (mem_sortQ xs v hv)
  have hempty : xs.isEmpty = false := by
    cases xs with
    | nil => exact absurd rfl hne
    | cons a l => rfl
  unfold pctOrErr percentile
  rw [hempty]
  simp only [Bool.false_eq_true, if_false]
  have hval : percentileSorted (sortQ xs) q = 0 := by
    simp only [percentileSorted]
    rw [getD_zero_of_all_zero (sortQ xs) hs, getD_zero_of_all_zero (sortQ xs) hs]
    ring
  rw [hval]

theorem mget_waterMask (db1 db2 : Grid) (i j : Nat) (hi : i < gridH db1) (hj : j < gridW db1) :
    mget (waterMask db1 db2) i j =
      (decide (gget db1 i j < MIN_BACKSCATTER_DB) &&
        decide (gget db2 i j < MIN_BACKSCATTER_DB)) := by
  unfold waterMask mget
  rw [rget_mkRect, if_pos ⟨hi, hj⟩]

theorem mget_landMask (db1 db2 : Grid) (i j : Nat) (hi : i < gridH db1) (hj : j < gridW db1) :
    mget (landMask db1 db2) i j = !mget (waterMask db1 db2) i j := by
  unfold landMask mget
  rw [rget_mkRect, if_pos ⟨hi, hj⟩]

/-- C5: on every in-range cell, the Stratifier's water mask holds exactly
the cells below `MIN_BACKSCATTER_DB` in both normalised grids, the land
mask is its complement, and the two zone masks are disjoint and cover the
cell exactly once. -/
theorem C5_stratifier_partition (db1 db2 : Grid) (i j : Nat)
    (hi : i < gridH db1) (hj : j < gridW db1) :
    (mget (waterMask db1 db2) i j = true ↔
        gget db1 i j < MIN_BACKSCATTER_DB ∧ gget db2 i j < MIN_BACKSCATTER_DB)
  ∧ mget (landMask db1 db2) i j = !mget (waterMask db1 db2) i j
  ∧ (mget (waterMask db1 db2) i j = true ∨ mget (landMask db1 db2) i j = true)
  ∧ ¬(mget (waterMask db1 db2) i j = true ∧ mget (landMask db1 db2) i j = true) := by
  have hw := mget_waterMask db1 db2 i j hi hj
  have hl := mget_landMask db1 db2 i j hi hj
  refine ⟨?_, hl, ?_, ?_⟩
  · rw [hw]
    simp
  · rw [hl]
    cases mget (waterMask db1 db2) i j
    · exact Or.inr rfl
    · exact Or.inl rfl
  · rw [hl]
    rintro ⟨h1, h2⟩
    rw [h1] at h2
    simp at h2

/-- Witness for C5 at a concrete pair of 1x1 grids. -/
theorem C5_stratifier_partition_witness :
    (mget (waterMask [[(-30 : ℚ)]] [[(-25 : ℚ)]]) 0 0 = true ↔
        gget [[(-30 : ℚ)]] 0 0 < MIN_BACKSCATTER_DB ∧
        gget [[(-25 : ℚ)]] 0 0 < MIN_BACKSCATTER_DB)
  ∧ mget (landMask [[(-30 : ℚ)]] [[(-25 : ℚ)]]) 0 0 =
      !mget (waterMask [[(-30 : ℚ)]] [[(-25 : ℚ)]]) 0 0
  ∧ (mget (waterMask [[(-30 : ℚ)]] [[(-25 : ℚ)]]) 0 0 = true ∨
      mget (landMask [[(-30 : ℚ)]] [[(-25 : ℚ)]]) 0 0 = true)
  ∧ ¬(mget (waterMask [[(-30 : ℚ)]] [[(-25 : ℚ)]]) 0 0 = true ∧
      mget (landMask [[(-30 : ℚ)]] [[(-25 : ℚ)]]) 0 0 = true) :=
  C5_stratifier_partition [[(-30 : ℚ)]] [[(-25 : ℚ)]] 0 0 (by decide) (by decide)

/-- C7: when the two input grids differ in dimensions, the radar pipeline
fails with `ShapeMismatch`; the check happens before any processing, so the
result is this error for every normalisation function and all grid values. -/
theorem C7_shape_mismatch (log10 : ℚ → ℚ) (img1 img2 : Grid)
    (h : gridShape img1 ≠ gridShape img2) :
    radarPipeline log10 img1 img2 = Except.error PipeError.shapeMismatch := by
  unfold radarPipeline
  rw [if_pos h]

/-- Witness for C7 on a 1x1 grid against a 2x1 grid. -/
theorem C7_shape_mismatch_witness :
    radarPipeline (fun x => x) [[(1 : ℚ)]] [[(1 : ℚ)], [(2 : ℚ)]] =
      Except.error PipeError.shapeMismatch :=
  C7_shape_mismatch (fun x => x) [[(1 : ℚ)]] [[(1 : ℚ)], [(2 : ℚ)]] (by decide)

/-- C6 counterexample: `clean_mask` is not idempotent.  On the all-ones
3x3 mask with minimum area 1, one application yields the single centre
pixel but a second application yields the empty mask, because the
zero-border closing is not extensive and the second opening erases what
the first pass kept. -/
theorem C6_counterexample :
    clean_mask (clean_mask [[true, true, true], [true, true, true], [true, true, true]] 1) 1 ≠
      clean_mask [[true, true, true], [true, true, true], [true, true, true]] 1 := by
  decide

/-- C6 amended: `clean_mask` is not idempotent; a second application can
strictly shrink the mask.  On the all-ones 3x3 mask with minimum area 1
the first application keeps exactly the centre pixel, and applying
`clean_mask` to that result empties it. -/
theorem C6_not_idempotent :
    clean_mask [[true, true, true], [true, true, true], [true, true, true]] 1 =
      [[false, false, false], [false, true, false], [false, false, false]]
  ∧ clean_mask [[false, false, false], [false, true, false], [false, false, false]] 1 =
      [[false, false, false], [false, false, false], [false, false, false]] := by
  constructor
  · decide
  · decide

/-- C2: whenever the population selected for a percentile threshold is
empty — the zone-mask selection used for `thr1`, `thr2`, `thr_intensity`,
or the strictly-positive selection used for `thr_pix` and `thr_water` —
the threshold computation fails with `EmptyPopulation` instead of
returning a value. -/
theorem C2_empty_population_fails :
    (∀ (g : Grid) (m : Mask) (p : ℚ), maskedValues g m = [] →
        pctOrErr (maskedValues g m) p = Except.error PipeError.emptyPopulation)
  ∧ (∀ (g : Grid) (p : ℚ), posValues g = [] →
        pctOrErr (posValues g) p = Except.error PipeError.emptyPopulation) :=
  ⟨fun _ _ p h => by rw [h]; exact pctOrErr_nil p,
   fun _ p h => by rw [h]; exact pctOrErr_nil p⟩

/-- Witness for C2: an all-false zone mask selects nothing, and a zero
difference grid has no strictly positive values. -/
theorem C2_empty_population_witness :
    pctOrErr (maskedValues [[(5 : ℚ)]] [[false]]) PERCENTILE_OBJ =
      Except.error PipeError.emptyPopulation
  ∧ pctOrErr (posValues [[(0 : ℚ)]]) PERCENTILE_PIX =
      Except.error PipeError.emptyPopulation :=
  ⟨C2_empty_population_fails.1 [[(5 : ℚ)]] [[false]] PERCENTILE_OBJ (by rfl),
   C2_empty_population_fails.2 [[(0 : ℚ)]] PERCENTILE_PIX (by rfl)⟩

theorem keptPolys_eq_nil (polys : List ChangePolygon) (t : GeoTransform) (minArea : ℚ)
    (h : ∀ p ∈ polys, p.area < minArea * pixelArea t) :
    keptPolys polys t minArea = [] := by
  unfold keptPolys
  rw [List.filter_eq_nil_iff]
  intro p hp
  simp only [decide_eq_true_eq]
  exact not_le.mpr (h p hp)

/-- C8: the Mask Vectorizer keeps exactly the traced polygons whose ground
area reaches `min_area` pixels converted via `|x_scale * y_scale|`, and
when nothing passes the filter the outcome is the "no changes detected"
report, not an error. -/
theorem C8_vectorizer_filter (polys : List ChangePolygon) (t : GeoTransform) (minArea : ℚ) :
    (∀ p, p ∈ keptPolys polys t minArea ↔ p ∈ polys ∧ minArea * pixelArea t ≤ p.area)
  ∧ ((∀ p ∈ polys, p.area < minArea * pixelArea t) →
        mask_to_geojson polys t minArea = VectorizeResult.noChanges) := by
  constructor
  · intro p
    unfold keptPolys
    rw [List.mem_filter]
    simp
  · intro h
    unfold mask_to_geojson
    rw [keptPolys_eq_nil polys t minArea h]

/-- Witness for C8 with a concrete unit geotransform. -/
theorem C8_vectorizer_filter_witness :
    (ChangePolygon.mk 5 ∈ keptPolys [ChangePolygon.mk 5] (GeoTransform.mk 1 0 0 0 1 0) 0 ↔
        ChangePolygon.mk 5 ∈ [ChangePolygon.mk 5] ∧
          (0 : ℚ) * pixelArea (GeoTransform.mk 1 0 0 0 1 0) ≤ (ChangePolygon.mk 5).area)
  ∧ mask_to_geojson ([] : List ChangePolygon) (GeoTransform.mk 1 0 0 0 1 0) 0 =
      VectorizeResult.noChanges :=
  ⟨(C8_vectorizer_filter [ChangePolygon.mk 5] (GeoTransform.mk 1 0 0 0 1 0) 0).1
      (ChangePolygon.mk 5),
   (C8_vectorizer_filter ([] : List ChangePolygon) (GeoTransform.mk 1 0 0 0 1 0) 0).2
      (by simp)⟩

/-- C10: when every traced polygon falls below the minimum ground area,
the vectorisation step returns early with the no-changes outcome and no
write to the vector sink happens. -/
theorem C10_no_write_when_filtered (polys : List ChangePolygon) (t : GeoTransform)
    (minArea : ℚ) (h : ∀ p ∈ polys, p.area < minArea * pixelArea t) :
    writesFile (mask_to_geojson polys t minArea) = false := by
  unfold mask_to_geojson
  rw [keptPolys_eq_nil polys t minArea h]
  rfl

/-- Witness for C10 in the everything-filtered case. -/
theorem C10_no_write_witness :
    writesFile (mask_to_geojson ([] : List ChangePolygon) (GeoTransform.mk 1 0 0 0 1 0) 0) =
      false :=
  C10_no_write_when_filtered ([] : List ChangePolygon) (GeoTransform.mk 1 0 0 0 1 0) 0 (by simp)

/-- C4: a labelled region is flagged by the appearance/disappearance
criterion exactly when none of its pixel coordinates carries a nonzero
label in the other epoch's labelled mask; a region whose footprint is
labelled in both masks is never flagged by this criterion; and a flagged
region has its full pixel footprint marked changed. -/
theorem C4_overlap_criterion (labA labB : LabGrid) (l : Nat) (hl : l ≠ 0)
    (hne : regionCoords labA l ≠ []) :
    (unmatchedRegion labB (regionCoords labA l) = true ↔
        ∀ c ∈ regionCoords labA l, lget labB c.1 c.2 = 0)
  ∧ ((∀ c ∈ regionCoords labA l, lget labB c.1 c.2 ≠ 0) →
        unmatchedRegion labB (regionCoords labA l) = false)
  ∧ (unmatchedRegion labB (regionCoords labA l) = true →
        ∀ c ∈ regionCoords labA l, mget (appearFlagMask labA labB) c.1 c.2 = true) := by
  have hchar : unmatchedRegion labB (regionCoords labA l) = true ↔
      ∀ c ∈ regionCoords labA l, lget labB c.1 c.2 = 0 := by
    unfold unmatchedRegion
    rw [List.all_eq_true]
    constructor
    · intro h c hc
      have := h c hc
      simpa using this
    · intro h c hc
      simpa using h c hc
  refine ⟨hchar, ?_, ?_⟩
  · intro h
    rcases List.exists_mem_of_ne_nil (regionCoords labA l) hne with ⟨c0, hc0⟩
    cases hu : unmatchedRegion labB (regionCoords labA l) with
    | false => rfl
    | true => exact absurd (hchar.mp hu c0 hc0) (h c0 hc0)
  · intro hu c hc
    have hcell := List.mem_filter.mp hc
    have hbound := (mem_allCells (rowsOf labA) (colsOf labA) c).mp hcell.1
    have hlab : lget labA c.1 c.2 = l := by simpa using hcell.2
    unfold appearFlagMask mget
    rw [rget_mkRect, if_pos ⟨hbound.1, hbound.2⟩, hlab, hu]
    simp [hl]

/-- Witness for C4 on a concrete pair of labelled 2x2 masks. -/
theorem C4_overlap_criterion_witness :
    (unmatchedRegion [[0, 0], [0, 2]] (regionCoords [[1, 0], [0, 0]] 1) = true ↔
        ∀ c ∈ regionCoords [[1, 0], [0, 0]] 1, lget [[0, 0], [0, 2]] c.1 c.2 = 0)
  ∧ ((∀ c ∈ regionCoords [[1, 0], [0, 0]] 1, lget [[0, 0], [0, 2]] c.1 c.2 ≠ 0) →
        unmatchedRegion [[0, 0], [0, 2]] (regionCoords [[1, 0], [0, 0]] 1) = false)
  ∧ (unmatchedRegion [[0, 0], [0, 2]] (regionCoords [[1, 0], [0, 0]] 1) = true →
        ∀ c ∈ regionCoords [[1, 0], [0, 0]] 1,
          mget (appearFlagMask [[1, 0], [0, 0]] [[0, 0], [0, 2]]) c.1 c.2 = true) :=
  C4_overlap_criterion [[1, 0], [0, 0]] [[0, 0], [0, 2]] 1 (by decide) (by decide)

theorem dotQ_neg_right (u v : List ℚ) : dotQ u (v.map fun x => -x) = -dotQ u v := by
  induction u generalizing v with
  | nil =>
    cases v <;> simp [dotQ]
  | cons a u ih =>
    cases v with
    | nil => simp [dotQ]
    | cons b v =>
      rw [show (b :: v).map (fun x => -x) = -b :: v.map (fun x => -x) from rfl,
        show dotQ (a :: u) (-b :: v.map fun x => -x) =
          a * -b + dotQ u (v.map fun x => -x) from rfl,
        ih v,
        show dotQ (a :: u) (b :: v) = a * b + dotQ u v from rfl]
      ring

theorem pcaScores_neg_axis (X : List (List ℚ)) (axis : List ℚ) :
    pcaScores X (axis.map fun x => -x) = (pcaScores X axis).map fun x => -x := by
  unfold pcaScores
  rw [List.map_map]
  exact List.map_congr_left fun r _ => dotQ_neg_right _ axis

theorem opticalFromScores_neg (H W : Nat) (scores : List ℚ) :
    opticalFromScores H W (scores.map fun x => -x) = opticalFromScores H W scores := by
  unfold opticalFromScores
  have habs : ((scores.map fun x => -x).map fun x => |x|) = scores.map fun x => |x| := by
    rw [List.map_map]
    exact List.map_congr_left fun x _ => abs_neg x
  rw [habs]

/-- C9: the optical change mask is invariant under a sign flip of the
first principal axis: flipping the axis negates every first-component
score, the scores pass through an absolute value before thresholding, and
so both the full pipeline on the flipped axis and the thresholding tail on
the negated scores `-pc1` yield identical results for every input pair and
every axis. -/
theorem C9_sign_flip_invariance (pre post : List Grid) (axis : List ℚ) :
    opticalCore pre post (axis.map fun x => -x) = opticalCore pre post axis
  ∧ opticalFromScores (bandH pre) (bandW pre)
        ((pcaScores (diffFlat pre post) axis).map fun x => -x) =
      opticalFromScores (bandH pre) (bandW pre) (pcaScores (diffFlat pre post) axis) := by
  constructor
  · unfold opticalCore
    by_cases hg : N_COMPONENTS ≤
        min (diffFlat pre post).length ((diffFlat pre post).headD []).length
    · rw [if_pos hg, if_pos hg, pcaScores_neg_axis, opticalFromScores_neg]
    · rw [if_neg hg, if_neg hg]
  · exact opticalFromScores_neg (bandH pre) (bandW pre) (pcaScores (diffFlat pre post) axis)

theorem posValues_brightDiff_self (db : Grid) (zone : Mask) :
    posValues (brightDiffGrid db db zone) = [] := by
  unfold posValues
  rw [List.filter_eq_nil_iff]
  intro x hx
  rcases mem_gridValues _ x hx with ⟨i, j, rfl⟩
  have h0 : gget (brightDiffGrid db db zone) i j = 0 := by
    unfold brightDiffGrid gget
    rw [rget_mkRect]
    by_cases hb : i < gridH db ∧ j < gridW db
    · rw [if_pos hb]
      simp
    · rw [if_neg hb]
  rw [h0]
  simp

theorem radarCore_self (db : Grid) :
    radarCore db db = Except.error PipeError.emptyPopulation := by
  unfold radarCore
  rcases pctOrErr_cases (maskedValues db (landMask db db)) PERCENTILE_OBJ with ⟨t1, h1⟩ | h1
  · rcases pctOrErr_cases (maskedValues (absDiffGrid db db) (landMask db db)) PERCENTILE_OBJ with
      ⟨t3, h3⟩ | h3
    · simp only [h1, h3, posValues_brightDiff_self db (landMask db db), pctOrErr_nil,
        Except.bind]
    · simp only [h1, h3, Except.bind]
  · simp only [h1, Except.bind]

/-- C1 amended: on two identical input grids the radar pipeline does not
produce an all-zero change mask; every strictly-positive difference
population is empty, so the pipeline aborts with the `EmptyPopulation`
percentile failure (at `thr_pix` when the land percentiles succeed, at
`thr1` already when the land zone is empty), and no final mask or polygon
collection is produced.  This holds for every dB-conversion function and
every grid. -/
theorem C1_identical_grids_fail (log10 : ℚ → ℚ) (g : Grid) :
    radarPipeline log10 g g = Except.error PipeError.emptyPopulation := by
  unfold radarPipeline
  rw [if_neg (by simp)]
  exact radarCore_self (despeckle (to_db log10 g))

/-- C1 counterexample: on the concrete identical pair of 1x1 grids the
pipeline returns the `EmptyPopulation` failure, not an all-zero mask with
an empty polygon collection. -/
theorem C1_counterexample :
    radarPipeline (fun x => x) [[(1 : ℚ)]] [[(1 : ℚ)]] =
      Except.error PipeError.emptyPopulation := by
  unfold radarPipeline
  rw [if_neg (by simp)]
  exact radarCore_self (despeckle (to_db (fun x => x) [[(1 : ℚ)]]))

theorem rget_mkRect_const {α : Type} (d : α) (H W : Nat) (f : Nat → Nat → α)
    (h : ∀ i j, f i j = d) : ∀ i j, rget d (mkRect H W f) i j = d := by
  intro i j
  rw [rget_mkRect]
  by_cases hb : i < H ∧ j < W
  · rw [if_pos hb]
    exact h i j
  · rw [if_neg hb]

theorem mgetZ_false (m : Mask) (h : ∀ i j, mget m i j = false) :
    ∀ zi zj, mgetZ m zi zj = false := by
  intro zi zj
  unfold mgetZ
  by_cases hb : 0 ≤ zi ∧ 0 ≤ zj
  · rw [if_pos hb]
    exact h _ _
  · rw [if_neg hb]

theorem erodeCross_false (m : Mask) (h : ∀ i j, mget m i j = false) :
    ∀ i j, mget (erodeCross m) i j = false := by
  intro i j
  unfold erodeCross erodeWith mget
  rw [rget_mkRect]
  by_cases hb : i < rowsOf m ∧ j < colsOf m
  · rw [if_pos hb]
    simp [offsetsCross, mgetZ_false m h]
  · rw [if_neg hb]

theorem dilateCross_false (m : Mask) (h : ∀ i j, mget m i j = false) :
    ∀ i j, mget (dilateCross m) i j = false := by
  intro i j
  unfold dilateCross dilateWith mget
  rw [rget_mkRect]
  by_cases hb : i < rowsOf m ∧ j < colsOf m
  · rw [if_pos hb]
    simp [offsetsCross, mgetZ_false m h]
  · rw [if_neg hb]

theorem stepLabel_zero (m : Mask) (h : ∀ i j, mget m i j = false) (lab : LabGrid) :
    ∀ i j, lget (stepLabel m lab) i j = 0 := by
  unfold stepLabel lget
  apply rget_mkRect_const
  intro i j
  rw [h i j]
  rfl

theorem lget_labelMask_false (m : Mask) (h : ∀ i j, mget m i j = false) :
    ∀ i j, lget (labelMask m) i j = 0 := by
  have hseed : ∀ i j, lget (seedLabels m) i j = 0 := by
    unfold seedLabels lget
    apply rget_mkRect_const
    intro i j
    rw [h i j]
    rfl
  have hfold : ∀ (l : List Nat) (acc : LabGrid), (∀ i j, lget acc i j = 0) →
      ∀ i j, lget (l.foldl (fun lab _ => stepLabel m lab) acc) i j = 0 := by
    intro l
    induction l with
    | nil => intro acc hacc; exact hacc
    | cons a l ih =>
      intro acc _
      exact ih (stepLabel m acc) (stepLabel_zero m h acc)
  exact hfold _ _ hseed

theorem diffFlat_self_zero (pre : List Grid) :
    ∀ r ∈ diffFlat pre pre, ∀ v ∈ r, v = 0 := by
  intro r hr v hv
  unfold diffFlat at hr
  rcases List.mem_map.mp hr with ⟨c, _, rfl⟩
  rcases List.mem_map.mp hv with ⟨k, _, rfl⟩
  exact sub_self _

theorem colMeans_zero (X : List (List ℚ)) (h : ∀ r ∈ X, ∀ v ∈ r, v = 0) :
    ∀ m ∈ colMeans X, m = 0 := by
  intro m hm
  unfold colMeans at hm
  rcases List.mem_map.mp hm with ⟨k, _, rfl⟩
  have hsum : (X.map fun r => r.getD k 0).sum = 0 := by
    apply List.sum_eq_zero
    intro x hx
    rcases List.mem_map.mp hx with ⟨r, hr, rfl⟩
    exact getD_zero_of_all_zero r (h r hr) k
  rw [hsum, zero_div]

theorem zipWith_sub_zero (u v : List ℚ) (hu : ∀ x ∈ u, x = 0) (hv : ∀ x ∈ v, x = 0) :
    ∀ x ∈ List.zipWith (fun a m => a - m) u v, x = 0 := by
  induction u generalizing v with
  | nil =>
    intro x hx
    simp at hx
  | cons a u ih =>
    cases v with
    | nil =>
      intro x hx
      simp at hx
    | cons b v =>
      intro x hx
      rcases List.mem_cons.mp hx with h1 | h1
      · rw [h1, hu a (List.mem_cons_self a u), hv b (List.mem_cons_self b v)]
        ring
      · exact ih v (fun y hy => hu y (List.mem_cons_of_mem a hy))
          (fun y hy => hv y (List.mem_cons_of_mem b hy)) x h1

theorem dotQ_zero_left (u v : List ℚ) (hu : ∀ x ∈ u, x = 0) : dotQ u v = 0 := by
  induction u generalizing v with
  | nil =>
    cases v <;> rfl
  | cons a u ih =>
    cases v with
    | nil => rfl
    | cons b v =>
      have ha : a = 0 := hu a (List.mem_cons_self a u)
      have hrest : dotQ u v = 0 := ih v fun y hy => hu y (List.mem_cons_of_mem a hy)
      rw [show dotQ (a :: u) (b :: v) = a * b + dotQ u v from rfl, ha, hrest]
      ring

theorem pcaScores_zero (X : List (List ℚ)) (axis : List ℚ)
    (h : ∀ r ∈ X, ∀ v ∈ r, v = 0) : ∀ s ∈ pcaScores X axis, s = 0 := by
  intro s hs
  unfold pcaScores at hs
  rcases List.mem_map.mp hs with ⟨r, hr, rfl⟩
  exact dotQ_zero_left _ axis (zipWith_sub_zero r (colMeans X) (h r hr) (colMeans_zero X h))

theorem length_allCells (H W : Nat) : (allCells H W).length = H * W := by
  unfold allCells
  rw [List.length_flatten, List.map_map]
  have h1 : ((List.range H).map (List.length ∘ fun i => (List.range W).map fun j => (i, j))) =
      (List.range H).map fun _ => W := by
    exact List.map_congr_left fun i _ => by simp
  rw [h1]
  have h2 : ((List.range H).map fun _ => W) = List.replicate H W := by
    rw [List.map_const']
    rw [List.length_range]
  rw [h2, List.sum_replicate, smul_eq_mul]

theorem opticalFromAbs_all_zero (H W : Nat) (absS : List ℚ) (hne : absS ≠ [])
    (h : ∀ v ∈ absS, v = 0) :
    opticalFromAbs H W absS = Except.ok (mkRect H W fun _ _ => false) := by
  unfold opticalFromAbs
  rw [pct_all_zero absS 95 hne h]
  simp only [Except.bind]
  refine congrArg Except.ok ?_
  have hch : ∀ i j,
      mget (mkRect H W fun i j => decide ((0 : ℚ) < absS.getD (i * W + j) 0)) i j = false := by
    unfold mget
    apply rget_mkRect_const
    intro i j
    rw [getD_zero_of_all_zero absS h (i * W + j)]
    simp
  have hcl := erodeCross_false _ (erodeCross_false _ (dilateCross_false _
    (dilateCross_false _ (dilateCross_false _ (erodeCross_false _ hch)))))
  have hlab := lget_labelMask_false _ hcl
  apply mkRect_congr
  intro i j _ _
  rw [hlab i j]
  rfl

theorem length_diffFlat (pre post : List Grid) :
    (diffFlat pre post).length = bandH pre * bandW pre := by
  unfold diffFlat
  rw [List.length_map, length_allCells]

theorem opticalCore_self_silent (pre : List Grid) (axis : List ℚ)
    (h1 : N_COMPONENTS ≤ bandH pre * bandW pre) (h2 : N_COMPONENTS ≤ pre.length) :
    opticalCore pre pre axis = Except.ok (mkRect (bandH pre) (bandW pre) fun _ _ => false) := by
  have hhead : ((diffFlat pre pre).headD []).length = pre.length := by
    unfold diffFlat
    cases hAC : allCells (bandH pre) (bandW pre) with
    | nil =>
      exfalso
      have hlen := length_allCells (bandH pre) (bandW pre)
      rw [hAC] at hlen
      simp only [List.length_nil] at hlen
      have h4 : (4 : Nat) ≤ bandH pre * bandW pre := h1
      omega
    | cons c rest =>
      simp only [List.map_cons, List.headD_cons]
      rw [List.length_map, List.length_range]
  unfold opticalCore
  rw [if_pos]
  · unfold opticalFromScores
    apply opticalFromAbs_all_zero
    · intro hnil
      have hlen : ((pcaScores (diffFlat pre pre) axis).map fun x => |x|).length =
          bandH pre * bandW pre := by
        rw [List.length_map]
        unfold pcaScores
        rw [List.length_map]
        exact length_diffFlat pre pre
      rw [hnil] at hlen
      simp only [List.length_nil] at hlen
      have h4 : (4 : Nat) ≤ bandH pre * bandW pre := h1
      omega
    · intro v hv
      rcases List.mem_map.mp hv with ⟨x, hx, rfl⟩
      rw [pcaScores_zero _ _ (diffFlat_self_zero pre) x hx, abs_zero]
  · rw [length_diffFlat pre pre, hhead]
    exact le_min h1 h2

/-- C3 amended: on the optical path with post = pre (a zero-variance
difference population in every band), the pipeline never raises a
`DegenerateSpectralInput` error.  Whenever `PCA(n_components=4)` accepts
the input at all - at least 4 pixel samples and at least 4 bands - no
error is raised: every first-component score is zero whatever principal
axis the SVD returns, the 95th-percentile threshold is zero, and the
strict comparison leaves a silent all-zero change mask.  (With fewer
samples sklearn raises its generic `n_components` `ValueError`, which is a
shape complaint, not a zero-variance diagnosis.) -/
theorem C3_silent_empty_mask (pre : List Grid) (axis : List ℚ)
    (h1 : N_COMPONENTS ≤ bandH pre * bandW pre) (h2 : N_COMPONENTS ≤ pre.length) :
    opticalCore pre pre axis = Except.ok (mkRect (bandH pre) (bandW pre) fun _ _ => false) :=
  opticalCore_self_silent pre axis h1 h2

/-- Witness for C3 on a concrete 4-band 2x2 stack (4 pixel samples, so
sklearn's shape validation passes). -/
theorem C3_silent_empty_mask_witness :
    N_COMPONENTS ≤
        bandH [[[(5 : ℚ), (3 : ℚ)], [(2 : ℚ), (8 : ℚ)]],
          [[(7 : ℚ), (1 : ℚ)], [(4 : ℚ), (6 : ℚ)]],
          [[(2 : ℚ), (9 : ℚ)], [(5 : ℚ), (3 : ℚ)]],
          [[(9 : ℚ), (4 : ℚ)], [(1 : ℚ), (7 : ℚ)]]] *
        bandW [[[(5 : ℚ), (3 : ℚ)], [(2 : ℚ), (8 : ℚ)]],
          [[(7 : ℚ), (1 : ℚ)], [(4 : ℚ), (6 : ℚ)]],
          [[(2 : ℚ), (9 : ℚ)], [(5 : ℚ), (3 : ℚ)]],
          [[(9 : ℚ), (4 : ℚ)], [(1 : ℚ), (7 : ℚ)]]]
  ∧ N_COMPONENTS ≤
        ([[[(5 : ℚ), (3 : ℚ)], [(2 : ℚ), (8 : ℚ)]],
          [[(7 : ℚ), (1 : ℚ)], [(4 : ℚ), (6 : ℚ)]],
          [[(2 : ℚ), (9 : ℚ)], [(5 : ℚ), (3 : ℚ)]],
          [[(9 : ℚ), (4 : ℚ)], [(1 : ℚ), (7 : ℚ)]]] : List Grid).length
  ∧ opticalCore
        [[[(5 : ℚ), (3 : ℚ)], [(2 : ℚ), (8 : ℚ)]],
          [[(7 : ℚ), (1 : ℚ)], [(4 : ℚ), (6 : ℚ)]],
          [[(2 : ℚ), (9 : ℚ)], [(5 : ℚ), (3 : ℚ)]],
          [[(9 : ℚ), (4 : ℚ)], [(1 : ℚ), (7 : ℚ)]]]
        [[[(5 : ℚ), (3 : ℚ)], [(2 : ℚ), (8 : ℚ)]],
          [[(7 : ℚ), (1 : ℚ)], [(4 : ℚ), (6 : ℚ)]],
          [[(2 : ℚ), (9 : ℚ)], [(5 : ℚ), (3 : ℚ)]],
          [[(9 : ℚ), (4 : ℚ)], [(1 : ℚ), (7 : ℚ)]]] [1, 0, 0, 0] =
      Except.ok (mkRect
        (bandH [[[(5 : ℚ), (3 : ℚ)], [(2 : ℚ), (8 : ℚ)]],
          [[(7 : ℚ), (1 : ℚ)], [(4 : ℚ), (6 : ℚ)]],
          [[(2 : ℚ), (9 : ℚ)], [(5 : ℚ), (3 : ℚ)]],
          [[(9 : ℚ), (4 : ℚ)], [(1 : ℚ), (7 : ℚ)]]])
        (bandW [[[(5 : ℚ), (3 : ℚ)], [(2 : ℚ), (8 : ℚ)]],
          [[(7 : ℚ), (1 : ℚ)], [(4 : ℚ), (6 : ℚ)]],
          [[(2 : ℚ), (9 : ℚ)], [(5 : ℚ), (3 : ℚ)]],
          [[(9 : ℚ), (4 : ℚ)], [(1 : ℚ), (7 : ℚ)]]]) fun _ _ => false) :=
  ⟨by decide, by decide,
   C3_silent_empty_mask
     [[[(5 : ℚ), (3 : ℚ)], [(2 : ℚ), (8 : ℚ)]],
       [[(7 : ℚ), (1 : ℚ)], [(4 : ℚ), (6 : ℚ)]],
       [[(2 : ℚ), (9 : ℚ)], [(5 : ℚ), (3 : ℚ)]],
       [[(9 : ℚ), (4 : ℚ)], [(1 : ℚ), (7 : ℚ)]]] [1, 0, 0, 0] (by decide) (by decide)⟩

/-- C3 counterexample: on a concrete 4-band 2x2 stack with post = pre -
an input sklearn's shape validation accepts - the optical pipeline returns
a successful, silently empty change mask instead of failing with a
`DegenerateSpectralInput` error. -/
theorem C3_counterexample :
    opticalCore
        [[[(5 : ℚ), (3 : ℚ)], [(2 : ℚ), (8 : ℚ)]],
          [[(7 : ℚ), (1 : ℚ)], [(4 : ℚ), (6 : ℚ)]],
          [[(2 : ℚ), (9 : ℚ)], [(5 : ℚ), (3 : ℚ)]],
          [[(9 : ℚ), (4 : ℚ)], [(1 : ℚ), (7 : ℚ)]]]
        [[[(5 : ℚ), (3 : ℚ)], [(2 : ℚ), (8 : ℚ)]],
          [[(7 : ℚ), (1 : ℚ)], [(4 : ℚ), (6 : ℚ)]],
          [[(2 : ℚ), (9 : ℚ)], [(5 : ℚ), (3 : ℚ)]],
          [[(9 : ℚ), (4 : ℚ)], [(1 : ℚ), (7 : ℚ)]]] [1, 0, 0, 0] =
      Except.ok [[false, false], [false, false]] := by
  have h := opticalCore_self_silent
    [[[(5 : ℚ), (3 : ℚ)], [(2 : ℚ), (8 : ℚ)]],
      [[(7 : ℚ), (1 : ℚ)], [(4 : ℚ), (6 : ℚ)]],
      [[(2 : ℚ), (9 : ℚ)], [(5 : ℚ), (3 : ℚ)]],
      [[(9 : ℚ), (4 : ℚ)], [(1 : ℚ), (7 : ℚ)]]] [1, 0, 0, 0] (by decide) (by decide)
  rw [h]
  rfl
